import Mathlib

/-
Verification of the dj-stripe specification against a shallow embedding of
the Customer/Charge synchronization layer.

The repository's `src/` tree holds only the models package re-exports
(`djstripe/models/__init__.py`) and the test suite
(`tests/test_customer.py`); the module bodies implementing `Customer` and
`Charge` are not included.  The operations below are therefore modelled
from the specification (`spec.md`), faithful to its words, with the test
suite pinning the concrete expectations.  Money amounts are rationals
(Python `decimal.Decimal` of the fixed-point amounts appearing in the
code); remote minor-unit amounts are integers.
-/

namespace DjStripe

/-- Modelled from Python's `int()` applied to a nonnegative-or-negative
rational: truncation toward zero ("truncate to nearest smaller-unit
integer" in the spec, for the nonnegative amounts that occur). -/
def pyInt (q : Rat) : Int :=
  if 0 ≤ q then ⌊q⌋ else -⌊-q⌋

/-- Local mirror of a remote customer: the LocalEntity of kind Customer
from spec §3, with the PII-bearing card fields and the optional owning
subscriber that the tests exercise. -/
structure Customer where
  stripe_id : String
  subscriber : Option String
  card_fingerprint : String
  card_last_4 : String
  card_kind : String
deriving DecidableEq

/-- Error kinds raised by the Remote Client Adapter (spec §6). -/
inductive StripeError where
  | invalidRequest (msg : String)
  | notFound
deriving DecidableEq

/-- Outcome of the one remote verification call made during purge:
either it succeeds, or it raises one of the adapter's error kinds. -/
inductive RemoteOutcome where
  | ok
  | notFound
  | invalidRequest (msg : String)
deriving DecidableEq

/-- Modelled from the spec: the heuristic textual match deciding whether
an InvalidRequest error "textually indicates 'no such object'" (spec §7);
the test passes the message "No such customer:". -/
def indicatesNoSuchObject (msg : String) : Bool :=
  "No such".data.isPrefixOf msg.data

/-- True when purge swallows the given remote outcome: success, NotFound,
or an InvalidRequest whose message indicates "no such object" (spec §7). -/
def swallowedOutcome : RemoteOutcome → Bool
  | .ok => true
  | .notFound => true
  | .invalidRequest msg => indicatesNoSuchObject msg

/-- The PII-clearing part of purge (spec §3 lifecycle): card fields
emptied, subscriber detached, the row and its remote id untouched. -/
def Customer.clearPII (c : Customer) : Customer :=
  { c with
    subscriber := none
    card_fingerprint := ""
    card_last_4 := ""
    card_kind := "" }

/-- Modelled from the spec: `purge(entity)` attempts one remote
verification call and, when its outcome is success, NotFound, or an
InvalidRequest indicating "no such object", proceeds to clear local PII
fields and detach the owner; an unexpected error is propagated to the
caller without mutating local state (spec §4.1, §7).  The remote
outcome is passed in explicitly; the result pairs the (possibly
unchanged) local entity with the propagated error, if any. -/
def Customer.purge (c : Customer) (r : RemoteOutcome) :
    Customer × Option StripeError :=
  match r with
  | .ok => (c.clearPII, none)
  | .notFound => (c.clearPII, none)
  | .invalidRequest msg =>
    if indicatesNoSuchObject msg then (c.clearPII, none)
    else (c, some (.invalidRequest msg))

/-- Modelled from the spec: "deleted" operations are modeled as a purge
(spec §3 lifecycle) — delete performs exactly the purge operation, not a
row removal. -/
def Customer.delete (c : Customer) (r : RemoteOutcome) :
    Customer × Option StripeError :=
  c.purge r

/-- The relevant slice of the local store: the user records (owning
identities) alongside the customer row, so that purge's frame can be
stated (the owning user record is never deleted). -/
structure DB where
  users : List String
  customer : Customer
deriving DecidableEq

/-- Purge lifted to the store: only the customer row is touched. -/
def DB.purge (db : DB) (r : RemoteOutcome) : DB × Option StripeError :=
  let p := db.customer.purge r
  ({ db with customer := p.1 }, p.2)

/-- The nested card sub-object of a charge snapshot. -/
structure Card where
  last4 : String
  type : String
deriving DecidableEq

/-- A provider snapshot of a charge, as returned by the remote API:
integer minor-unit amounts, boolean lifecycle flags, an optional
`amount_refunded` key and an optional dispute sub-object. -/
structure ChargeSnapshot where
  id : String
  card : Card
  amount : Int
  paid : Bool
  refunded : Bool
  captured : Bool
  amount_refunded : Option Int
  fee : Int
  dispute : Option String
  customer : String
deriving DecidableEq

/-- Local mirror of a remote charge: fixed-point decimal major-unit
amounts, flattened card fields, lifecycle booleans. -/
structure Charge where
  stripe_id : String
  customer : String
  card_last_4 : String
  card_kind : String
  amount : Rat
  amount_refunded : Option Rat
  fee : Rat
  paid : Bool
  refunded : Bool
  captured : Bool
  disputed : Bool
deriving DecidableEq

/-- Modelled from the spec: the Snapshot Mapper for charges (spec §4.2) —
integer minor units divided by 100 into decimal major units, card
sub-object flattened into card_last_4/card_kind, booleans passed
through, absent `amount_refunded` mapped to null (not zero), dispute
presence collapsed to the `disputed` flag. -/
def Charge.syncFromStripeData (data : ChargeSnapshot) : Charge :=
  { stripe_id := data.id
    customer := data.customer
    card_last_4 := data.card.last4
    card_kind := data.card.type
    amount := (data.amount : Rat) / 100
    amount_refunded := data.amount_refunded.map (fun n => (n : Rat) / 100)
    fee := (data.fee : Rat) / 100
    paid := data.paid
    refunded := data.refunded
    captured := data.captured
    disputed := data.dispute.isSome }

/-- Modelled from the spec: the refund amount policy (spec §4.1) — with
no amount, refund the full charge amount; with an amount, clamp it to
the original charge amount; multiply by 100 and truncate into the
provider's integer minor units. -/
def Charge.calculate_refund_amount (c : Charge) (amount : Option Rat) : Int :=
  let toRefund :=
    match amount with
    | none => c.amount
    | some a => min a c.amount
  pyInt (toRefund * 100)

/-- Modelled from the spec: `refund(charge, amount?)` computes the
refund amount, issues the remote refund call with it, and re-syncs the
local record from the remote response (spec §4.1).  The remote call is
a function from the requested minor-unit amount to the response
snapshot. -/
def Charge.refund (c : Charge) (remote : Int → ChargeSnapshot)
    (amount : Option Rat) : Charge :=
  Charge.syncFromStripeData (remote (c.calculate_refund_amount amount))

/-- Modelled from the spec: `capture(charge)` issues a capture request
and re-syncs the local record from the remote response (spec §4.1). -/
def Charge.capture (c : Charge) (response : ChargeSnapshot) : Charge :=
  Charge.syncFromStripeData response

/-- A dynamically-typed amount argument as Python receives it: either a
plain integer or a fixed-point decimal. -/
inductive PyValue where
  | int (n : Int)
  | dec (q : Rat)
deriving DecidableEq

/-- The outbound remote charge-creation request: minor-unit amount plus
the extra keyword arguments passed through unchanged. -/
structure ChargeRequest where
  amount : Int
  customer : String
  capture : Option Bool
  destination : Option String
deriving DecidableEq

/-- Modelled from the spec: `Customer.charge` validates that the amount
is a decimal (raising ValueError otherwise, before any remote call is
made), converts decimal major units to integer minor units by
multiplying by 100, and passes extra keyword arguments through to the
remote creation call unchanged (spec §4.1; tests
test_charge_accepts_only_decimals, test_charge_converts_dollars_into_cents,
test_charge_passes_extra_arguments).  The result is the outbound request,
or the error when no request is issued. -/
def Customer.charge (c : Customer) (amount : PyValue)
    (capture : Option Bool) (destination : Option String) :
    Except String ChargeRequest :=
  match amount with
  | .int _ => .error "You must supply a decimal value representing dollars."
  | .dec q =>
    .ok { amount := pyInt (q * 100)
          customer := c.stripe_id
          capture := capture
          destination := destination }

/-- The customer fixture of the test suite's setUp. -/
def testCustomer : Customer :=
  { stripe_id := "cus_xxxxxxxxxxxxxxx"
    subscriber := some "patrick"
    card_fingerprint := "YYYYYYYY"
    card_last_4 := "2342"
    card_kind := "Visa" }

/-- The charge fixture of the refund-amount tests: amount 500.00. -/
def testCharge : Charge :=
  { stripe_id := "ch_111111"
    customer := "cus_xxxxxxxxxxxxxxx"
    card_last_4 := ""
    card_kind := ""
    amount := 500
    amount_refunded := none
    fee := 0
    paid := false
    refunded := false
    captured := false
    disputed := false }

lemma pyInt_intCast (A : Int) : pyInt (A : Rat) = A := by
  unfold pyInt
  rcases le_or_lt 0 (A : Rat) with h | h
  · rw [if_pos h, Int.floor_intCast]
  · rw [if_neg (not_le.mpr h), ← Int.cast_neg, Int.floor_intCast, neg_neg]

lemma div_hundred_mul_hundred (A : Int) : (A : Rat) / 100 * 100 = (A : Rat) := by
  field_simp

/-- C1: for every charge whose amount is the fixed-point decimal A/100
(A minor units), `calculate_refund_amount` with no argument returns A;
with an explicit amount of B/100 ≤ the charge amount it returns B; with
an explicit amount greater than the charge amount it returns A — the
request is clamped to the original charge amount, never raising. -/
theorem calculate_refund_amount_clamped (c : Charge) (A B : Int)
    (hA : c.amount = (A : Rat) / 100) :
    c.calculate_refund_amount none = A ∧
    ((B : Rat) / 100 ≤ c.amount →
      c.calculate_refund_amount (some ((B : Rat) / 100)) = B) ∧
    (c.amount < (B : Rat) / 100 →
      c.calculate_refund_amount (some ((B : Rat) / 100)) = A) := by
  unfold Charge.calculate_refund_amount
  refine ⟨?_, fun h => ?_, fun h => ?_⟩ <;> dsimp only
  · simp only [hA, div_hundred_mul_hundred, pyInt_intCast]
  · rw [min_eq_left h, div_hundred_mul_hundred, pyInt_intCast]
  · rw [min_eq_right h.le, hA, div_hundred_mul_hundred, pyInt_intCast]

/-- Witness for C1 at the test fixture: amount 500.00 (= 50000/100);
a full refund requests 50000 minor units, a partial refund of 300.00
requests 30000, and a request of 600.00 is clamped to 50000. -/
theorem calculate_refund_amount_clamped_witness :
    testCharge.amount = ((50000 : Int) : Rat) / 100 ∧
    (testCharge.calculate_refund_amount none = 50000 ∧
      (((30000 : Int) : Rat) / 100 ≤ testCharge.amount →
        testCharge.calculate_refund_amount
          (some (((30000 : Int) : Rat) / 100)) = 30000) ∧
      (testCharge.amount < ((30000 : Int) : Rat) / 100 →
        testCharge.calculate_refund_amount
          (some (((30000 : Int) : Rat) / 100)) = 50000)) ∧
    testCharge.calculate_refund_amount (some (((60000 : Int) : Rat) / 100)) =
      50000 := by
  have hA : testCharge.amount = ((50000 : Int) : Rat) / 100 := by
    norm_num [testCharge]
  refine ⟨hA, calculate_refund_amount_clamped testCharge 50000 30000 hA, ?_⟩
  have h := (calculate_refund_amount_clamped testCharge 50000 60000 hA).2.2
  exact h (by rw [hA]; norm_num)

/-- The store fixture: the user "patrick" owning the test customer. -/
def testDB : DB :=
  { users := ["patrick"], customer := testCustomer }

/-- C2: for every store and every remote outcome that purge swallows,
purge clears the PII-bearing fields (card_fingerprint, card_last_4 and
card_kind become empty) and detaches the subscriber, while the customer
row persists with its stripe_id unchanged, the owning user records are
untouched, and no error is raised. -/
theorem purge_clears_pii_preserves_row (db : DB) (r : RemoteOutcome)
    (h : swallowedOutcome r = true) :
    (db.purge r).2 = none ∧
    (db.purge r).1.customer.card_fingerprint = "" ∧
    (db.purge r).1.customer.card_last_4 = "" ∧
    (db.purge r).1.customer.card_kind = "" ∧
    (db.purge r).1.customer.subscriber = none ∧
    (db.purge r).1.customer.stripe_id = db.customer.stripe_id ∧
    (db.purge r).1.users = db.users := by
  cases r with
  | ok => simp [DB.purge, Customer.purge, Customer.clearPII]
  | notFound => simp [DB.purge, Customer.purge, Customer.clearPII]
  | invalidRequest msg =>
    simp only [swallowedOutcome] at h
    simp [DB.purge, Customer.purge, Customer.clearPII, h]

/-- Witness for C2 at the test fixture with a successful remote call. -/
theorem purge_clears_pii_preserves_row_witness :
    swallowedOutcome .ok = true ∧
    ((testDB.purge .ok).2 = none ∧
      (testDB.purge .ok).1.customer.card_fingerprint = "" ∧
      (testDB.purge .ok).1.customer.card_last_4 = "" ∧
      (testDB.purge .ok).1.customer.card_kind = "" ∧
      (testDB.purge .ok).1.customer.subscriber = none ∧
      (testDB.purge .ok).1.customer.stripe_id = testDB.customer.stripe_id ∧
      (testDB.purge .ok).1.users = testDB.users) :=
  ⟨rfl, purge_clears_pii_preserves_row testDB .ok rfl⟩

/-- C3: if the remote verification call raises an InvalidRequest error
whose message textually indicates "no such object", purge swallows the
error (no re-raise) and produces exactly the state of the success
case: PII cleared and subscriber detached. -/
theorem purge_swallows_no_such_object (c : Customer) (msg : String)
    (h : indicatesNoSuchObject msg = true) :
    c.purge (.invalidRequest msg) = c.purge .ok ∧
    c.purge (.invalidRequest msg) = (c.clearPII, none) := by
  constructor <;> simp [Customer.purge, h]

/-- Witness for C3 at the test's error message "No such customer:". -/
theorem purge_swallows_no_such_object_witness :
    indicatesNoSuchObject "No such customer:" = true ∧
    (testCustomer.purge (.invalidRequest "No such customer:") =
        testCustomer.purge .ok ∧
      testCustomer.purge (.invalidRequest "No such customer:") =
        (testCustomer.clearPII, none)) :=
  ⟨by decide, purge_swallows_no_such_object testCustomer
    "No such customer:" (by decide)⟩

/-- C4: if the remote verification call raises an InvalidRequest error
whose message does not indicate "no such object", purge propagates that
same error to the caller and leaves the local entity completely
unmutated. -/
theorem purge_propagates_unexpected_error (c : Customer) (msg : String)
    (h : indicatesNoSuchObject msg = false) :
    c.purge (.invalidRequest msg) = (c, some (.invalidRequest msg)) := by
  simp [Customer.purge, h]

/-- Witness for C4 at the test's error message "Unexpected Exception". -/
theorem purge_propagates_unexpected_error_witness :
    indicatesNoSuchObject "Unexpected Exception" = false ∧
    testCustomer.purge (.invalidRequest "Unexpected Exception") =
      (testCustomer, some (.invalidRequest "Unexpected Exception")) :=
  ⟨by decide, purge_propagates_unexpected_error testCustomer
    "Unexpected Exception" (by decide)⟩

/-- C5: purge is idempotent — after a first purge whose outcome was
swallowed, purging again under any swallowed outcome (in particular
NotFound or "no such object" when the remote object is already gone)
raises no error and returns exactly the state left by the first call. -/
theorem purge_idempotent (c : Customer) (r₁ r₂ : RemoteOutcome)
    (h₁ : swallowedOutcome r₁ = true) (h₂ : swallowedOutcome r₂ = true) :
    (c.purge r₁).1.purge r₂ = ((c.purge r₁).1, none) := by
  cases r₁ <;> cases r₂ <;>
    simp only [swallowedOutcome] at h₁ h₂ <;>
    simp [Customer.purge, Customer.clearPII, h₁, h₂]

/-- Witness for C5: first purge succeeds, second sees NotFound. -/
theorem purge_idempotent_witness :
    swallowedOutcome .ok = true ∧ swallowedOutcome .notFound = true ∧
    (testCustomer.purge .ok).1.purge .notFound =
      ((testCustomer.purge .ok).1, none) :=
  ⟨rfl, rfl, purge_idempotent testCustomer .ok .notFound rfl rfl⟩

/-- C6: delete has exactly the same observable effect on local state as
purge — for every customer and remote outcome the two operations agree,
and under a swallowed outcome delete leaves the PII fields cleared, the
subscriber detached and the stripe_id preserved (delete is purge, not
row removal). -/
theorem delete_same_as_purge (c : Customer) (r : RemoteOutcome)
    (h : swallowedOutcome r = true) :
    c.delete r = c.purge r ∧
    (c.delete r).1.card_fingerprint = "" ∧
    (c.delete r).1.card_last_4 = "" ∧
    (c.delete r).1.card_kind = "" ∧
    (c.delete r).1.subscriber = none ∧
    (c.delete r).1.stripe_id = c.stripe_id := by
  refine ⟨rfl, ?_⟩
  cases r with
  | ok => simp [Customer.delete, Customer.purge, Customer.clearPII]
  | notFound => simp [Customer.delete, Customer.purge, Customer.clearPII]
  | invalidRequest msg =>
    simp only [swallowedOutcome] at h
    simp [Customer.delete, Customer.purge, Customer.clearPII, h]

/-- Witness for C6 at the test fixture with a successful remote call. -/
theorem delete_same_as_purge_witness :
    swallowedOutcome .ok = true ∧
    (testCustomer.delete .ok = testCustomer.purge .ok ∧
      (testCustomer.delete .ok).1.card_fingerprint = "" ∧
      (testCustomer.delete .ok).1.card_last_4 = "" ∧
      (testCustomer.delete .ok).1.card_kind = "" ∧
      (testCustomer.delete .ok).1.subscriber = none ∧
      (testCustomer.delete .ok).1.stripe_id = testCustomer.stripe_id) :=
  ⟨rfl, delete_same_as_purge testCustomer .ok rfl⟩

/-- The charge snapshot of test_record_charge: amount 1000, fee 499,
no amount_refunded key, dispute null. -/
def testSnapshot : ChargeSnapshot :=
  { id := "ch_XXXXXX"
    card := { last4 := "4323", type := "Visa" }
    amount := 1000
    paid := true
    refunded := false
    captured := true
    amount_refunded := none
    fee := 499
    dispute := none
    customer := "cus_xxxxxxxxxxxxxxx" }

/-- The refund response snapshot of test_refund_charge:
amount_refunded 1000, refunded true. -/
def refundSnapshot : ChargeSnapshot :=
  { testSnapshot with refunded := true, amount_refunded := some 1000 }

/-- C7: the snapshot mapper divides the integer minor-unit money fields
by 100 into decimal major units, maps an absent amount_refunded to none
rather than zero (so "not refunded" stays distinguishable from
"refunded zero", which maps to some 0), and is total over every
snapshot of the provider shape. -/
theorem syncFromStripeData_money_conversion (s : ChargeSnapshot) :
    (Charge.syncFromStripeData s).amount = (s.amount : Rat) / 100 ∧
    (Charge.syncFromStripeData s).fee = (s.fee : Rat) / 100 ∧
    ((Charge.syncFromStripeData s).amount_refunded = none ↔
      s.amount_refunded = none) ∧
    (s.amount_refunded = some 0 →
      (Charge.syncFromStripeData s).amount_refunded = some 0) := by
  refine ⟨rfl, rfl, ?_, fun h => ?_⟩
  · cases h : s.amount_refunded <;> simp [Charge.syncFromStripeData, h]
  · simp [Charge.syncFromStripeData, h]

/-- Witness for C7 at the test_record_charge snapshot: amount 1000 maps
to 10.00, fee 499 maps to 4.99, the absent amount_refunded maps to
none. -/
theorem syncFromStripeData_money_conversion_witness :
    (Charge.syncFromStripeData testSnapshot).amount = 10 ∧
    (Charge.syncFromStripeData testSnapshot).fee = (499 : Rat) / 100 ∧
    (Charge.syncFromStripeData testSnapshot).amount_refunded = none := by
  have h := syncFromStripeData_money_conversion testSnapshot
  refine ⟨?_, ?_, ?_⟩
  · rw [h.1]; norm_num [testSnapshot]
  · rw [h.2.1]; norm_num [testSnapshot]
  · exact h.2.2.1.mpr rfl

/-- C8: refund re-syncs the local Charge from the remote response — for
every charge, remote behaviour and requested amount, when the response
snapshot carries refunded = true and amount_refunded = 1000 minor
units, the returned entity is the mapped response, with refunded = true
and amount_refunded = 10.00; likewise capture returns the mapped
response of the capture call. -/
theorem refund_resyncs_from_response (c : Charge)
    (remote : Int → ChargeSnapshot) (a : Option Rat) (s : ChargeSnapshot)
    (h₁ : (remote (c.calculate_refund_amount a)).refunded = true)
    (h₂ : (remote (c.calculate_refund_amount a)).amount_refunded =
      some 1000) :
    c.refund remote a =
      Charge.syncFromStripeData (remote (c.calculate_refund_amount a)) ∧
    (c.refund remote a).refunded = true ∧
    (c.refund remote a).amount_refunded = some 10 ∧
    c.capture s = Charge.syncFromStripeData s := by
  refine ⟨rfl, ?_, ?_, rfl⟩
  · simp [Charge.refund, Charge.syncFromStripeData, h₁]
  · simp [Charge.refund, Charge.syncFromStripeData, h₂]
    norm_num

/-- Witness for C8 at the test_refund_charge fixture: a full refund of
the 10.00 test charge against a remote answering with the refund
snapshot. -/
theorem refund_resyncs_from_response_witness :
    (((fun _ => refundSnapshot : Int → ChargeSnapshot)
        ((Charge.syncFromStripeData testSnapshot).calculate_refund_amount
          none)).refunded = true) ∧
    (((fun _ => refundSnapshot : Int → ChargeSnapshot)
        ((Charge.syncFromStripeData testSnapshot).calculate_refund_amount
          none)).amount_refunded = some 1000) ∧
    ((Charge.syncFromStripeData testSnapshot).refund
        (fun _ => refundSnapshot) none).refunded = true ∧
    ((Charge.syncFromStripeData testSnapshot).refund
        (fun _ => refundSnapshot) none).amount_refunded = some 10 := by
  have h := refund_resyncs_from_response (Charge.syncFromStripeData
    testSnapshot) (fun _ => refundSnapshot) none testSnapshot
    (by simp [refundSnapshot]) (by simp [refundSnapshot])
  exact ⟨by simp [refundSnapshot], by simp [refundSnapshot], h.2.1, h.2.2.1⟩

/-- C9: Customer.charge rejects a non-decimal amount at the public
interface — for every plain-integer amount it returns the ValueError
and issues no outbound request; in particular the test's call
charge(10) fails this way. -/
theorem charge_accepts_only_decimals (c : Customer) (n : Int)
    (capture : Option Bool) (destination : Option String) :
    c.charge (.int n) capture destination =
      .error "You must supply a decimal value representing dollars." ∧
    testCustomer.charge (.int 10) none none =
      .error "You must supply a decimal value representing dollars." :=
  ⟨rfl, rfl⟩

/-- C10: Customer.charge converts the decimal major-unit amount to
integer minor units by multiplying by 100 and truncating, and passes
the extra keyword arguments through to the remote creation call
unchanged; in particular charging 10.00 with capture = true and
destination = "a_stripe_client_id" issues the remote create with
amount = 1000 and those arguments intact. -/
theorem charge_converts_dollars_into_cents (c : Customer) (q : Rat)
    (capture : Option Bool) (destination : Option String) :
    c.charge (.dec q) capture destination =
      .ok { amount := pyInt (q * 100)
            customer := c.stripe_id
            capture := capture
            destination := destination } ∧
    testCustomer.charge (.dec 10) (some true) (some "a_stripe_client_id") =
      .ok { amount := 1000
            customer := testCustomer.stripe_id
            capture := some true
            destination := some "a_stripe_client_id" } := by
  refine ⟨rfl, ?_⟩
  have h : pyInt ((10 : Rat) * 100) = 1000 := by
    rw [show ((10 : Rat) * 100) = ((1000 : Int) : Rat) by norm_num,
      pyInt_intCast]
  simp [Customer.charge, h]

end DjStripe
